import Mathlib

/-!
Verification of the core computational pipeline of the sales dashboard
(`src/app.py`): date-range filtering, comparison-period resolution
(`periodo_anterior`), KPI aggregation (`tot`/`avg`/`cnt`), the delta
calculator (`delta_pct`), and the currency formatter (`fmt_moneda`).

Calendar dates are embedded as (year, month, day) triples and compared
through their day-number image `toDaysZ` (a rata-die count), which is how
`datetime.date` / `pd.Timestamp` comparison and `pd.Timedelta` day
arithmetic behave.  Amounts are embedded as rationals; pandas' NaN /
Python's None are embedded as `Option.none`.
-/

namespace App

/-- A calendar date, as handled by `datetime.date` / `pd.Timestamp`
(dates only: the app never uses a time component). -/
structure Date where
  year : ℕ
  month : ℕ
  day : ℕ
deriving DecidableEq

/-- Gregorian leap-year test. -/
def isLeap (y : ℕ) : Bool :=
  (y % 4 == 0 && y % 100 != 0) || (y % 400 == 0)

/-- Number of days of month `m` of year `y`. -/
def daysInMonth (y m : ℕ) : ℕ :=
  if m = 2 then (if isLeap y then 29 else 28)
  else if m = 4 ∨ m = 6 ∨ m = 9 ∨ m = 11 then 30
  else 31

/-- Days of year `y` that precede the first day of month `m`. -/
def daysBeforeMonth (y m : ℕ) : ℕ :=
  ((List.range (m - 1)).map (fun k => daysInMonth y (k + 1))).sum

/-- Rata-die day number of a date: days elapsed since the virtual
0001-01-01 (day 0).  Timestamp comparison and `pd.Timedelta` day
arithmetic coincide with arithmetic on this count. -/
def toDays (dt : Date) : ℕ :=
  365 * (dt.year - 1) + (dt.year - 1) / 4 - (dt.year - 1) / 100
    + (dt.year - 1) / 400 + daysBeforeMonth dt.year dt.month + (dt.day - 1)

/-- `toDays`, as an integer (so that window arithmetic can go negative). -/
def toDaysZ (dt : Date) : ℤ := (toDays dt : ℤ)

/-- `ts - pd.DateOffset(years=1)`: same month and day one calendar year
earlier, with the day clamped to the target month's length (Feb 29 of a
leap year maps to Feb 28). -/
def subYear (dt : Date) : Date :=
  ⟨dt.year - 1, dt.month, min dt.day (daysInMonth (dt.year - 1) dt.month)⟩

/-- One synthetic sales record of the dataset built by `get_data`
(src/app.py lines 27-39): a date, a category label, a region label and a
non-negative amount.  The pandas DataFrame is embedded as a `List Record`
in row order. -/
structure Record where
  Fecha : Date
  Categoria : String
  Region : String
  Ventas : ℚ
deriving DecidableEq

/-- The main filter (src/app.py lines 139-144):
`df_full[(Fecha >= rango[0]) & (Fecha <= rango[1]) & Región.isin(regiones)
& Categoría.isin(categorias)].copy()`. -/
def filtrado (df_full : List Record) (rango : Date × Date)
    (regiones categorias : List String) : List Record :=
  df_full.filter (fun r =>
    decide (toDaysZ rango.1 ≤ toDaysZ r.Fecha
      ∧ toDaysZ r.Fecha ≤ toDaysZ rango.2
      ∧ r.Region ∈ regiones
      ∧ r.Categoria ∈ categorias))

/-- `df["Ventas"].sum()` (src/app.py line 167): sum of the amounts, in
row order; the sum of an empty frame is 0. -/
def tot (df : List Record) : ℚ := (df.map Record.Ventas).sum

/-- `df.shape[0]` (src/app.py line 169): the number of rows. -/
def cnt (df : List Record) : ℕ := df.length

/-- `df["Ventas"].mean()` (src/app.py line 168): sum divided by count,
NaN (`none`) on an empty frame. -/
def avg (df : List Record) : Option ℚ :=
  if cnt df = 0 then none else some (tot df / (cnt df : ℚ))

/-- `delta_pct` (src/app.py lines 48-51): NaN when the prior value is
None, NaN or zero, otherwise the signed percentage change.  NaN / None
are both embedded as `none`; a NaN current value propagates through the
subtraction exactly as IEEE NaN arithmetic does in the source. -/
def delta_pct (actual pasado : Option ℚ) : Option ℚ :=
  match pasado with
  | none => none
  | some p =>
    if p = 0 then none
    else
      match actual with
      | none => none
      | some a => some ((a - p) / p * 100)

/-- The decimal digit `d` (0-9) as a character. -/
def digitChar (d : ℕ) : Char := Char.ofNat (48 + d)

/-- Decimal digits of `n`, least significant first, driven by a fuel
argument so that recursion is structural (`fuel = n` is always enough). -/
def natDigitsAux : ℕ → ℕ → List Char
  | 0, _ => []
  | _ + 1, 0 => []
  | fuel + 1, n + 1 => digitChar ((n + 1) % 10) :: natDigitsAux fuel ((n + 1) / 10)

/-- Decimal digits of `n`, most significant first; `0` renders as "0". -/
def natDigits (n : ℕ) : List Char :=
  if n = 0 then ['0'] else (natDigitsAux n n).reverse

/-- Insert `sep` after every third character of `ds` (a least-significant
first digit list), as Python's `,` grouping option does.  Fuel-driven for
structural recursion; `fuel = ds.length` is always enough. -/
def group3RevAux : ℕ → Char → List Char → List Char
  | 0, _, ds => ds
  | fuel + 1, sep, ds =>
    if ds.length ≤ 3 then ds
    else ds.take 3 ++ sep :: group3RevAux fuel sep (ds.drop 3)

/-- Round a rational to the nearest integer, ties to even — the rounding
used by Python's fixed-point float formatting. -/
def rndHE (q : ℚ) : ℤ :=
  let f := Int.fdiv q.num (q.den : ℤ)
  let r := q - (f : ℚ)
  if r < 1 / 2 then f
  else if 1 / 2 < r then f + 1
  else if f % 2 = 0 then f else f + 1

/-- The integer-part digits of `ip` grouped in threes by `sep`, as
Python's `,` grouping option renders them. -/
def intPartChars (sep : Char) (ip : ℕ) : List Char :=
  (group3RevAux (natDigits ip).length sep (natDigits ip).reverse).reverse

/-- The fractional part: `point` followed by exactly `dec` digits of
`fp` (zero-padded on the left); empty when `dec = 0`. -/
def fracPartChars (point : Char) (dec fp : ℕ) : List Char :=
  if dec = 0 then []
  else point :: (List.replicate (dec - (natDigits fp).length) '0' ++ natDigits fp)

/-- Python's `"{:,.DECf}".format(v)` with grouping character `sep` and
decimal point `point`: the value rounded to `dec` decimal places, sign,
integer digits grouped in threes by `sep`, then `point` and exactly `dec`
fractional digits (no point when `dec = 0`). -/
def renderNum (sep point : Char) (v : ℚ) (dec : ℕ) : List Char :=
  let scaled := rndHE (v * (10 : ℚ) ^ dec)
  (if scaled < 0 then ['-'] else [])
    ++ intPartChars sep (scaled.natAbs / 10 ^ dec)
    ++ fracPartChars point dec (scaled.natAbs % 10 ^ dec)

/-- The character swap effected by the source's replacement chain
`,→X`, `.→,`, `X→.`: commas and dots exchanged (an `X` would land on a
dot, but no `X` ever occurs in a formatted number). -/
def swapPunct (c : Char) : Char :=
  if c = ',' then '.' else if c = '.' then ',' else if c = 'X' then '.' else c

/-- Python's `s.replace(a, b)` for one-character patterns: replace every
occurrence of the character `a` by `b`. -/
def pyReplaceChar (s : List Char) (a b : Char) : List Char :=
  s.map (fun c => if c = a then b else c)

/-- `fmt_moneda` (src/app.py lines 41-46): NaN renders as the placeholder
glyph; otherwise `"$" + "{:,.decf}".format(x)` followed by the
`,→X`, `.→,`, `X→.` replacement chain that swaps the English separators
into the Spanish convention. -/
def fmt_moneda (x : Option ℚ) (dec : ℕ := 0) : String :=
  match x with
  | none => "—"
  | some v =>
    "$" ++ String.mk
      (pyReplaceChar (pyReplaceChar
        (pyReplaceChar (renderNum ',' '.' v dec) ',' 'X') '.' ',') 'X' '.')

/-- The date bounds of the comparable prior window computed by
`periodo_anterior` (src/app.py lines 61-71), as day numbers
`(ini_prev, fin_prev)`.  `modo = "dias"`: the immediately preceding
window of the same day length; otherwise (`"anio"`): both bounds shifted
back one calendar year via `pd.DateOffset(years=1)`. -/
def periodo_anterior_bounds (rango : Date × Date) (modo : String) : ℤ × ℤ :=
  let ini := toDaysZ rango.1
  let fin := toDaysZ rango.2
  if modo = "dias" then
    let dias := fin - ini + 1
    let fin_prev := ini - 1
    let ini_prev := fin_prev - (dias - 1)
    (ini_prev, fin_prev)
  else
    (toDaysZ (subYear rango.1), toDaysZ (subYear rango.2))

/-- `periodo_anterior` (src/app.py lines 61-71): the rows of `df` whose
date lies in the resolved prior window.  Only the date is tested — no
category or region condition appears. -/
def periodo_anterior (df : List Record) (rango : Date × Date)
    (modo : String) : List Record :=
  let b := periodo_anterior_bounds rango modo
  df.filter (fun r =>
    decide (b.1 ≤ toDaysZ r.Fecha ∧ toDaysZ r.Fecha ≤ b.2))

/-- The comparison branch of the KPI block (src/app.py lines 171-176):
for a comparison mode other than "Sin comparación" the prior KPIs are the
aggregates of `periodo_anterior(df_full, rango, modo_calc)`; for
"Sin comparación", all three are NaN. -/
def prev_kpis (df_full : List Record) (rango : Date × Date)
    (modo_comp : String) : Option ℚ × Option ℚ × Option ℚ :=
  if modo_comp ≠ "Sin comparación" then
    let modo_calc := if modo_comp = "Periodo anterior" then "dias" else "anio"
    let prev_df := periodo_anterior df_full rango modo_calc
    (some (tot prev_df), avg prev_df, some ((cnt prev_df : ℚ)))
  else
    (none, none, none)

/-! ### Helper lemmas -/

theorem map_eq_self {f : Char → Char} (l : List Char) (h : ∀ c ∈ l, f c = c) :
    l.map f = l := by
  induction l with
  | nil => rfl
  | cons a t ih =>
    simp only [List.map_cons]
    rw [h a (by simp), ih (fun c hc => h c (by simp [hc]))]

theorem map_group3RevAux (f : Char → Char) (fuel : ℕ) (sep : Char)
    (ds : List Char) (h : ∀ c ∈ ds, f c = c) :
    (group3RevAux fuel sep ds).map f = group3RevAux fuel (f sep) ds := by
  induction fuel generalizing ds with
  | zero => simpa only [group3RevAux] using map_eq_self ds h
  | succ n ih =>
    simp only [group3RevAux]
    by_cases hl : ds.length ≤ 3
    · simpa only [hl, if_true] using map_eq_self ds h
    · simp only [hl, if_false, List.map_append, List.map_cons]
      rw [map_eq_self _ (fun c hc => h c (List.take_subset 3 ds hc)),
        ih (ds.drop 3) (fun c hc => h c (List.drop_subset 3 ds hc))]

theorem natDigitsAux_digit (fuel : ℕ) :
    ∀ n, ∀ c ∈ natDigitsAux fuel n, ∃ d, d < 10 ∧ c = digitChar d := by
  induction fuel with
  | zero => intro n c hc; simp [natDigitsAux] at hc
  | succ m ih =>
    intro n c hc
    cases n with
    | zero => simp [natDigitsAux] at hc
    | succ k =>
      simp only [natDigitsAux, List.mem_cons] at hc
      rcases hc with rfl | hc
      · exact ⟨(k + 1) % 10, Nat.mod_lt _ (by norm_num), rfl⟩
      · exact ih _ c hc

theorem natDigits_digit (n : ℕ) :
    ∀ c ∈ natDigits n, ∃ d, d < 10 ∧ c = digitChar d := by
  intro c hc
  unfold natDigits at hc
  by_cases h0 : n = 0
  · simp only [h0, if_true, List.mem_singleton] at hc
    exact ⟨0, by norm_num, by rw [hc]; rfl⟩
  · simp only [h0, if_false, List.mem_reverse] at hc
    exact natDigitsAux_digit n n c hc

theorem swapPunct_digit : ∀ d, d < 10 → swapPunct (digitChar d) = digitChar d := by
  decide

theorem swapPunct_natDigits (n : ℕ) :
    (natDigits n).map swapPunct = natDigits n :=
  map_eq_self _ (fun c hc => by
    obtain ⟨d, hd, rfl⟩ := natDigits_digit n c hc
    exact swapPunct_digit d hd)

theorem pyChain (s : List Char) :
    pyReplaceChar (pyReplaceChar (pyReplaceChar s ',' 'X') '.' ',') 'X' '.'
      = s.map swapPunct := by
  simp only [pyReplaceChar, List.map_map]
  congr 1
  funext c
  simp only [Function.comp_apply, swapPunct]
  by_cases h1 : c = ','
  · subst h1; decide
  · by_cases h2 : c = '.'
    · subst h2; decide
    · by_cases h3 : c = 'X'
      · subst h3; decide
      · simp [h1, h2, h3]

theorem map_intPartChars (ip : ℕ) :
    (intPartChars ',' ip).map swapPunct = intPartChars '.' ip := by
  unfold intPartChars
  rw [List.map_reverse, map_group3RevAux swapPunct _ _ _ (fun c hc => by
    rw [List.mem_reverse] at hc
    obtain ⟨d, hd, rfl⟩ := natDigits_digit ip c hc
    exact swapPunct_digit d hd)]
  have hc : swapPunct ',' = '.' := by decide
  rw [hc]

theorem map_fracPartChars (dec fp : ℕ) :
    (fracPartChars '.' dec fp).map swapPunct = fracPartChars ',' dec fp := by
  unfold fracPartChars
  by_cases h0 : dec = 0
  · simp [h0]
  · simp only [h0, if_false, List.map_cons, List.map_append, List.map_replicate,
      swapPunct_natDigits]
    have h1 : swapPunct '.' = ',' := by decide
    have h2 : swapPunct '0' = '0' := by decide
    rw [h1, h2]

theorem renderNum_swap (v : ℚ) (dec : ℕ) :
    (renderNum ',' '.' v dec).map swapPunct = renderNum '.' ',' v dec := by
  simp only [renderNum, List.map_append, map_intPartChars, map_fracPartChars]
  by_cases hs : rndHE (v * (10 : ℚ) ^ dec) < 0
  · simp only [hs, if_true]
    have hm : swapPunct '-' = '-' := by decide
    simp [hm]
  · simp [hs]

/-! ### Claim theorems -/

/-- Claim C1: for every current date range with start ≤ end, the
"Periodo anterior" resolver (`periodo_anterior` with `modo = "dias"`)
yields a prior window ending the day immediately before the current
start (`fin_prev = ini - 1`), starting `dayCount - 1` days earlier, of
the same length in days, immediately adjacent to the current window;
and on the range 2025-06-01..2025-06-10 it yields 2025-05-22..2025-05-31. -/
theorem periodo_anterior_dias_spec (rango : Date × Date)
    (h : toDaysZ rango.1 ≤ toDaysZ rango.2) :
    (periodo_anterior_bounds rango "dias").2 = toDaysZ rango.1 - 1 ∧
    (periodo_anterior_bounds rango "dias").1
      = (periodo_anterior_bounds rango "dias").2
        - ((toDaysZ rango.2 - toDaysZ rango.1 + 1) - 1) ∧
    (periodo_anterior_bounds rango "dias").2
        - (periodo_anterior_bounds rango "dias").1 + 1
      = toDaysZ rango.2 - toDaysZ rango.1 + 1 ∧
    (periodo_anterior_bounds rango "dias").2 + 1 = toDaysZ rango.1 ∧
    periodo_anterior_bounds (⟨2025, 6, 1⟩, ⟨2025, 6, 10⟩) "dias"
      = (toDaysZ ⟨2025, 5, 22⟩, toDaysZ ⟨2025, 5, 31⟩) := by
  have hb : periodo_anterior_bounds rango "dias"
      = (toDaysZ rango.1 - 1 - (toDaysZ rango.2 - toDaysZ rango.1 + 1 - 1),
         toDaysZ rango.1 - 1) := rfl
  rw [hb]
  exact ⟨rfl, by omega, by omega, by omega, by decide⟩

theorem periodo_anterior_dias_spec_witness :
    (periodo_anterior_bounds (⟨2025, 6, 1⟩, ⟨2025, 6, 10⟩) "dias").2 + 1
      = toDaysZ ⟨2025, 6, 1⟩ :=
  (periodo_anterior_dias_spec (⟨2025, 6, 1⟩, ⟨2025, 6, 10⟩) (by decide)).2.2.2.1

/-- Claim C2: `delta_pct` returns the NaN sentinel when the prior value
is missing or zero, and otherwise the signed percentage
`(actual - pasado) / pasado * 100`; in particular
`delta_pct 110 100 = 10` and `delta_pct 90 100 = -10`.  It is a total
function by construction, so no exception can arise. -/
theorem delta_pct_spec :
    (∀ a : Option ℚ, delta_pct a none = none) ∧
    (∀ a : Option ℚ, delta_pct a (some 0) = none) ∧
    (∀ a p : ℚ, p ≠ 0 → delta_pct (some a) (some p) = some ((a - p) / p * 100)) ∧
    delta_pct (some 110) (some 100) = some 10 ∧
    delta_pct (some 90) (some 100) = some (-10) := by
  refine ⟨fun a => rfl, fun a => ?_, fun a p hp => ?_,
    by with_unfolding_all rfl, by with_unfolding_all rfl⟩
  · simp [delta_pct]
  · simp [delta_pct, hp]

theorem delta_pct_spec_witness : delta_pct (some 50) (some 25) = some 100 := by
  rw [delta_pct_spec.2.2.1 50 25 (by norm_num)]
  with_unfolding_all rfl

/-- Claim C3: a record is in the filtered subset iff its date lies in
the inclusive range and its category and region belong to the selected
sets; the filtered subset is a subsequence of the dataset (original
relative order preserved, dataset untouched — the embedding is purely
functional) and duplicates no record when the dataset has none. -/
theorem filtrado_spec (df_full : List Record) (rango : Date × Date)
    (regiones categorias : List String) :
    (∀ r : Record, r ∈ filtrado df_full rango regiones categorias ↔
      r ∈ df_full ∧ toDaysZ rango.1 ≤ toDaysZ r.Fecha
        ∧ toDaysZ r.Fecha ≤ toDaysZ rango.2
        ∧ r.Categoria ∈ categorias ∧ r.Region ∈ regiones) ∧
    List.Sublist (filtrado df_full rango regiones categorias) df_full ∧
    (df_full.Nodup → (filtrado df_full rango regiones categorias).Nodup) := by
  refine ⟨fun r => ?_, List.filter_sublist _, fun h => h.filter _⟩
  simp only [filtrado, List.mem_filter, decide_eq_true_eq]
  tauto

theorem filtrado_spec_witness :
    (filtrado [(⟨⟨2024, 1, 1⟩, "Ropa", "Norte", 100⟩ : Record)]
      (⟨2024, 1, 1⟩, ⟨2024, 12, 31⟩) ["Norte"] ["Ropa"]).Nodup :=
  (filtrado_spec _ _ _ _).2.2 (by simp)

/-- Claim C4: for either comparison mode the comparison subset is the
full dataset restricted only by the resolved prior date range — the iff
below carries no category or region condition, so a record of any
category and region whose date lies in the prior window belongs to it;
and the KPI block feeds `periodo_anterior` the full dataset for both
non-trivial modes. -/
theorem comparacion_sin_filtros_spec :
    (∀ (df : List Record) (rango : Date × Date) (modo : String) (r : Record),
      r ∈ periodo_anterior df rango modo ↔
        r ∈ df ∧ (periodo_anterior_bounds rango modo).1 ≤ toDaysZ r.Fecha
          ∧ toDaysZ r.Fecha ≤ (periodo_anterior_bounds rango modo).2) ∧
    (∀ (df : List Record) (rango : Date × Date),
      prev_kpis df rango "Periodo anterior"
        = (some (tot (periodo_anterior df rango "dias")),
           avg (periodo_anterior df rango "dias"),
           some ((cnt (periodo_anterior df rango "dias") : ℚ)))) ∧
    (∀ (df : List Record) (rango : Date × Date),
      prev_kpis df rango "Mismo periodo año anterior"
        = (some (tot (periodo_anterior df rango "anio")),
           avg (periodo_anterior df rango "anio"),
           some ((cnt (periodo_anterior df rango "anio") : ℚ)))) := by
  refine ⟨fun df rango modo r => ?_, fun df rango => rfl, fun df rango => rfl⟩
  simp only [periodo_anterior, List.mem_filter, decide_eq_true_eq]

/-- Claim C5: the "Mismo periodo año anterior" resolver
(`periodo_anterior` with `modo = "anio"`) shifts both bounds back one
calendar year (month preserved, day clamped to the target month as
`pd.DateOffset(years=1)` does), not by a fixed 365 days: on
2024-06-01..2024-06-10 it yields 2023-06-01..2023-06-10, and the
calendar-year step there is 366 days, not 365. -/
theorem periodo_anterior_anio_spec :
    (∀ rango : Date × Date, periodo_anterior_bounds rango "anio"
      = (toDaysZ (subYear rango.1), toDaysZ (subYear rango.2))) ∧
    (∀ dt : Date, (subYear dt).year = dt.year - 1 ∧ (subYear dt).month = dt.month) ∧
    periodo_anterior_bounds (⟨2024, 6, 1⟩, ⟨2024, 6, 10⟩) "anio"
      = (toDaysZ ⟨2023, 6, 1⟩, toDaysZ ⟨2023, 6, 10⟩) ∧
    toDaysZ ⟨2024, 6, 1⟩ - toDaysZ ⟨2023, 6, 1⟩ ≠ 365 :=
  ⟨fun rango => rfl, fun dt => ⟨rfl, rfl⟩, by decide, by decide⟩

/-- Claim C6: the aggregator returns the sum of the amounts, the
subset's size, and mean = total / count for a non-empty subset and the
NaN sentinel for an empty one; the count is a natural number and the
total is non-negative whenever every amount is (as generation
guarantees). -/
theorem kpis_spec (df : List Record) :
    tot df = (df.map Record.Ventas).sum ∧
    cnt df = df.length ∧
    (0 < cnt df → avg df = some (tot df / (cnt df : ℚ))) ∧
    (cnt df = 0 → avg df = none) ∧
    ((∀ r ∈ df, 0 ≤ r.Ventas) → 0 ≤ tot df) := by
  refine ⟨rfl, rfl, fun h => ?_, fun h => ?_, fun h => ?_⟩
  · unfold avg
    rw [if_neg (by omega)]
  · simp [avg, h]
  · refine List.sum_nonneg ?_
    intro x hx
    obtain ⟨r, hr, rfl⟩ := List.mem_map.1 hx
    exact h r hr

theorem kpis_spec_witness :
    avg [(⟨⟨2024, 1, 1⟩, "Ropa", "Norte", 100⟩ : Record)]
        = some (tot [(⟨⟨2024, 1, 1⟩, "Ropa", "Norte", 100⟩ : Record)]
          / (cnt [(⟨⟨2024, 1, 1⟩, "Ropa", "Norte", 100⟩ : Record)] : ℚ)) ∧
    0 ≤ tot [(⟨⟨2024, 1, 1⟩, "Ropa", "Norte", 100⟩ : Record)] :=
  ⟨(kpis_spec _).2.2.1 (by decide),
   (kpis_spec _).2.2.2.2 (by
     intro r hr
     rw [List.mem_singleton] at hr
     subst hr
     norm_num)⟩

/-- Claim C7: a range with start strictly after end filters to the empty
subset (no failure), whose metrics are total 0, count 0 and mean NaN. -/
theorem rango_invalido_spec (df_full : List Record) (rango : Date × Date)
    (regiones categorias : List String)
    (h : toDaysZ rango.2 < toDaysZ rango.1) :
    filtrado df_full rango regiones categorias = [] ∧
    tot (filtrado df_full rango regiones categorias) = 0 ∧
    cnt (filtrado df_full rango regiones categorias) = 0 ∧
    avg (filtrado df_full rango regiones categorias) = none := by
  have hnil : filtrado df_full rango regiones categorias = [] := by
    unfold filtrado
    rw [List.filter_eq_nil_iff]
    intro r hr
    simp only [decide_eq_true_eq]
    rintro ⟨h1, h2, -⟩
    omega
  exact ⟨hnil, by rw [hnil]; rfl, by rw [hnil]; rfl, by rw [hnil]; rfl⟩

theorem rango_invalido_spec_witness :
    filtrado [(⟨⟨2025, 1, 5⟩, "Ropa", "Norte", 100⟩ : Record)]
      (⟨2025, 1, 2⟩, ⟨2025, 1, 1⟩) ["Norte"] ["Ropa"] = [] :=
  (rango_invalido_spec _ _ _ _ (by decide)).1

/-- Claim C8: the filter is idempotent — filtering the already-filtered
subset again with the same range, categories and regions returns it
unchanged. -/
theorem filtrado_idempotente (df_full : List Record) (rango : Date × Date)
    (regiones categorias : List String) :
    filtrado (filtrado df_full rango regiones categorias) rango regiones categorias
      = filtrado df_full rango regiones categorias := by
  unfold filtrado
  rw [List.filter_filter]
  congr 1
  funext r
  exact Bool.and_self _

/-- Claim C9: `fmt_moneda` renders a missing value as the placeholder
glyph "—", and any numeric value as "$" followed by the number written
with a dot as thousands separator and a comma as decimal separator
(`renderNum '.' ','`); in particular 1234.5 at two decimals renders as
"$1.234,50". -/
theorem fmt_moneda_spec :
    (∀ dec : ℕ, fmt_moneda none dec = "—") ∧
    (∀ (v : ℚ) (dec : ℕ),
      fmt_moneda (some v) dec = "$" ++ String.mk (renderNum '.' ',' v dec)) ∧
    fmt_moneda (some (2469 / 2)) 2 = "$1.234,50" := by
  refine ⟨fun dec => rfl, fun v dec => ?_, by with_unfolding_all rfl⟩
  simp only [fmt_moneda]
  rw [pyChain, renderNum_swap]

/-- Claim C10: a missing current value propagates through `delta_pct`
to the NaN sentinel when the prior is finite and nonzero; with
comparison mode "Sin comparación" all three prior KPIs are NaN, and a
NaN prior always yields a NaN delta. -/
theorem delta_nan_spec :
    (∀ p : ℚ, p ≠ 0 → delta_pct none (some p) = none) ∧
    (∀ (df : List Record) (rango : Date × Date),
      prev_kpis df rango "Sin comparación" = (none, none, none)) ∧
    (∀ a : Option ℚ, delta_pct a none = none) := by
  refine ⟨fun p hp => ?_, fun df rango => rfl, fun a => rfl⟩
  simp [delta_pct, hp]

theorem delta_nan_spec_witness : delta_pct none (some 5) = none :=
  delta_nan_spec.1 5 (by norm_num)

end App
